import Mathlib

/-!
Verification of the robottelo ssh utility module (robottelo/ssh.py): a shallow
embedding of `SSHCommandResult.__init__`, `execute_command`, `command`,
`get_client`/`get_connection`, `add_authorized_key`, `download_file` and
`is_ssh_pub_key`, with theorems settling the specified properties.

Python values flowing through `stdout` are modelled by `PyVal`; the external
structured-output parsers `hammer.parse_csv` / `hammer.parse_json` (imported
from robottelo.cli.hammer, outside this module) are modelled symbolically by
the constructors `PyVal.csvParsed` / `PyVal.jsonParsed`, so "the parser was
invoked on v" is the value itself.
-/

namespace Robottelo

/-- A Python value that can sit in the `stdout` field of an
`SSHCommandResult`: `none`, a text string, a list of lines, the empty dict
`\x7b\x7d`, or the symbolic result of one of the external structured parsers. -/
inductive PyVal where
  | none
  | str (s : String)
  | strList (ls : List String)
  | emptyDict
  | csvParsed (v : PyVal)
  | jsonParsed (v : PyVal)
deriving DecidableEq, Repr

/-- Python truthiness of a `PyVal` (`if stdout:`): `None`, `""`, `[]` and
`\x7b\x7d` are falsy.  The code under verification only ever tests truthiness of
raw values (`None`, strings, lists), never of an already-parsed value, so the
choice `true` for parsed values is never consulted. -/
def pyTruthy : PyVal → Bool
  | PyVal.none => false
  | PyVal.str s => s != ""
  | PyVal.strList ls => !ls.isEmpty
  | PyVal.emptyDict => false
  | PyVal.csvParsed _ => true
  | PyVal.jsonParsed _ => true

/-- Whether a value is the output of one of the structured parsers. -/
def isParsed : PyVal → Bool
  | PyVal.csvParsed _ => true
  | PyVal.jsonParsed _ => true
  | _ => false

/-- Python truthiness of the `output_format` argument (`if output_format:`):
`None` and the empty string are falsy. -/
def formatTruthy : Option String → Bool
  | Option.none => false
  | Option.some s => s != ""

/-- The stdout post-processing performed by `SSHCommandResult.__init__`
(robottelo/ssh.py lines 32-37):

    if output_format and self.return_code == 0:
        if output_format == 'csv':
            self.stdout = hammer.parse_csv(stdout) if stdout else \x7b\x7d
        if output_format == 'json':
            self.stdout = hammer.parse_json(stdout) if stdout else None

The two inner `if`s are sequential in the source but test disjoint string
constants, so they are rendered as an if/else-if chain; both branches read the
`stdout` argument, never the already-reassigned attribute. -/
def initStdout (stdout : PyVal) (return_code : Int) (output_format : Option String) : PyVal :=
  if formatTruthy output_format ∧ return_code = 0 then
    if output_format = Option.some "csv" then
      (if pyTruthy stdout then PyVal.csvParsed stdout else PyVal.emptyDict)
    else if output_format = Option.some "json" then
      (if pyTruthy stdout then PyVal.jsonParsed stdout else PyVal.none)
    else stdout
  else stdout

/-- The value object returned by every executed command
(`class SSHCommandResult`, robottelo/ssh.py lines 23-42). -/
structure SSHCommandResult where
  stdout : PyVal
  stderr : String
  return_code : Int
  output_format : Option String
deriving DecidableEq, Repr

/-- `SSHCommandResult.__init__` (robottelo/ssh.py lines 26-37). -/
def SSHCommandResult.init (stdout : PyVal) (stderr : String) (return_code : Int)
    (output_format : Option String) : SSHCommandResult :=
  ⟨initStdout stdout return_code output_format, stderr, return_code, output_format⟩

end Robottelo

namespace Robottelo

/-!  Character-level models of the Python text operations used by
`execute_command`.  All are structural recursions so they evaluate inside the
kernel. -/

/-- One left-to-right pass of `re.sub` with the pattern
ESC `[` digit optional-digit `m` (the compiled regex at robottelo/ssh.py line
282): at each position, a match is removed whole and scanning resumes after
it, otherwise one character is emitted and scanning moves one position right.
The one-digit and two-digit shapes cannot both match at a position, since `m`
is not a digit.  The fuel argument only makes the recursion structural: every
step consumes at least one character and one unit of fuel, so fuel equal to
the length of the input (see `stripColors`) is never exhausted. -/
def stripColorsAux : Nat → List Char → List Char
  | 0, l => l
  | Nat.succ fuel, l =>
    match l with
    | [] => []
    | '\x1b' :: '[' :: d1 :: 'm' :: rest =>
      if d1.isDigit then stripColorsAux fuel rest
      else '\x1b' :: stripColorsAux fuel ('[' :: d1 :: 'm' :: rest)
    | '\x1b' :: '[' :: d1 :: d2 :: 'm' :: rest =>
      if d1.isDigit && d2.isDigit then stripColorsAux fuel rest
      else '\x1b' :: stripColorsAux fuel ('[' :: d1 :: d2 :: 'm' :: rest)
    | c :: rest => c :: stripColorsAux fuel rest

/-- The color-code substitution on a character list. -/
def stripColors (l : List Char) : List Char := stripColorsAux l.length l

/-- `stripColors` lifted to `String`. -/
def stripColorsStr (s : String) : String := String.mk (stripColors s.data)

/-- Python `text.split(chr(10))`: split at every newline, keeping empty
pieces, so the result always has one more piece than there are newlines. -/
def splitOnNl : List Char → List (List Char)
  | [] => [[]]
  | c :: rest =>
    if c = '\n' then [] :: splitOnNl rest
    else
      match splitOnNl rest with
      | [] => [[c]]
      | g :: gs => (c :: g) :: gs

/-- Python `text.replace(two-double-quotes, empty)`: remove each
non-overlapping occurrence of the two-character sequence `""`, left to
right (robottelo/ssh.py line 297). -/
def removeQuotePairs : List Char → List Char
  | [] => []
  | '"' :: '"' :: rest => removeQuotePairs rest
  | c :: rest => c :: removeQuotePairs rest

/-- Python `line.startswith('[')` on the model's character lists. -/
def pyStartsWithBracket : List Char → Bool
  | '[' :: _ => true
  | _ => false

/-- The list comprehension of robottelo/ssh.py lines 299-303 rendered back to
strings: each kept line with its color codes stripped. -/
def renderLines (ls : List (List Char)) : List String :=
  ls.map (fun l => String.mk (stripColors l))

/-- The lines `execute_command` keeps for default (line-oriented) output:
split the quote-artifact-free text on newlines and drop every line whose
first character is `[` (the filter runs on the unstripped line). -/
def plainLines (stdout : String) : List (List Char) :=
  (splitOnNl (removeQuotePairs stdout.data)).filter (fun l => !pyStartsWithBracket l)

/-- The stdout normalization of `execute_command` (robottelo/ssh.py lines
291-303): when stdout is non-empty and the format is neither `json` nor
`plain`, remove `""` artifacts, split into lines, drop `[`-lines and strip
color codes from each kept line; otherwise stdout stays the decoded text. -/
def normalizeStdout (stdout : String) (output_format : Option String) : PyVal :=
  if stdout ≠ "" ∧ output_format ≠ Option.some "json" ∧ output_format ≠ Option.some "plain" then
    PyVal.strList (renderLines (plainLines stdout))
  else PyVal.str stdout

/-- The stderr normalization of `execute_command` (robottelo/ssh.py lines
287-290): color codes are stripped from a non-empty stderr as a whole. -/
def normalizeStderr (stderr : String) : String :=
  if stderr ≠ "" then stripColorsStr stderr else stderr

/-- The pure tail of `execute_command` (robottelo/ssh.py lines 279-305): given
the decoded stdout and stderr texts and the exit status read from the channel,
normalize both streams and build the `SSHCommandResult`. -/
def execute_command_result (stdout stderr : String) (errorcode : Int)
    (output_format : Option String) : SSHCommandResult :=
  SSHCommandResult.init (normalizeStdout stdout output_format) (normalizeStderr stderr)
    errorcode output_format

/-- A transport connection as `execute_command` sees it: the behaviour maps a
command and the timeout handed to `connection.exec_command` to the exit
status, raw stdout and raw stderr (`paramiko` is external to the module). -/
structure SSHClientM where
  connectTimeout : Nat
  execBehavior : String → Nat → Int × String × String

/-- `get_client` (robottelo/ssh.py lines 76-97): opens a transport connection,
passing its `timeout` argument (Python default 10) to `client.connect`. -/
def get_client (behavior : String → Nat → Int × String × String) (timeout : Nat) : SSHClientM :=
  ⟨timeout, behavior⟩

/-- `execute_command` (robottelo/ssh.py lines 265-305): run the command over
the given connection with the given execution timeout (Python default 120)
and package the captured output. -/
def execute_command (cmd : String) (connection : SSHClientM) (output_format : Option String)
    (timeout : Nat) : SSHCommandResult :=
  match connection.execBehavior cmd timeout with
  | (errorcode, out, err) => execute_command_result out err errorcode output_format

/-- The Python default of `execute_command`'s `timeout` parameter. -/
def execute_command_default_timeout : Nat := 120

/-- The Python default of `command`'s `timeout` parameter. -/
def command_default_timeout : Nat := 10

/-- `command` (robottelo/ssh.py lines 239-262): the one-shot caller-facing
operation; its single `timeout` argument is passed to `get_connection` (hence
to `client.connect`) and, positionally, as `execute_command`'s `timeout`. -/
def command (cmd : String) (behavior : String → Nat → Int × String × String)
    (output_format : Option String) (timeout : Nat) : SSHCommandResult :=
  execute_command cmd (get_client behavior timeout) output_format timeout

/-- A connection behaviour that reports the execution timeout it was handed
as the exit status, to observe which timeout reaches `exec_command`. -/
def spyBehavior : String → Nat → Int × String × String :=
  fun _ t => ((t : Int), "", "")

end Robottelo

namespace Robottelo

/-!  The scoped-connection lifecycle of `get_connection`. -/

/-- The observable state of one underlying transport connection. -/
structure ConnState where
  opened : Bool
  closeCount : Nat
deriving DecidableEq, Repr

/-- `client.close()`. -/
def ConnState.close (s : ConnState) : ConnState :=
  ⟨false, s.closeCount + 1⟩

/-- The connection `get_client` hands back: open, never closed yet. -/
def freshConn : ConnState := ⟨true, 0⟩

/-- Outcome of the caller's `with`-block body: a value, or a propagated
Python exception. -/
inductive PyResult (α : Type) where
  | ok (a : α)
  | raised (msg : String)
deriving DecidableEq, Repr

/-- `get_connection` (robottelo/ssh.py lines 100-141): connect via
`get_client`, yield the client to the caller's scope, and in the `finally`
clause close it exactly once — whether the body returned a value or raised.
The body is passed the connection state and returns the state it leaves
behind together with its outcome; the scope then closes that state and
propagates the outcome unchanged. -/
def get_connection_scope {α : Type} (body : ConnState → ConnState × PyResult α) :
    ConnState × PyResult α :=
  (ConnState.close (body freshConn).1, (body freshConn).2)

/-- A body that raises without touching the connection, used to witness the
exceptional exit path. -/
def raisingBody : ConnState → ConnState × PyResult Unit :=
  fun s => (s, PyResult.raised "boom")

end Robottelo

namespace Robottelo

/-!  `is_ssh_pub_key` (robottelo/ssh.py lines 308-334). -/

/-- A Python object passed to `is_ssh_pub_key`: a text string or a non-text
value (the code only distinguishes `isinstance(key, six.string_types)`). -/
inductive PyObj where
  | pyStr (s : String)
  | pyInt (n : Int)
  | pyNone
deriving DecidableEq, Repr

/-- The errors `is_ssh_pub_key` can raise: the `ValueError` for a non-text
input (the spec's `InvalidInputType`), and the `UnicodeEncodeError` of
`key_string.encode('ascii')` on a non-ASCII token, which the function does
not catch (its `except` clause names only `binascii.Error`). -/
inductive PyError where
  | invalidInputType
  | unicodeEncodeErr
deriving DecidableEq, Repr

/-- The outcome of calling `is_ssh_pub_key`: a returned boolean, or a raised
error. -/
inductive KeyCheck where
  | ok (b : Bool)
  | raises (e : PyError)
deriving DecidableEq, Repr

/-- Python `key.split()` with no separator: split on runs of whitespace and
drop empty tokens (leading and trailing whitespace produce none). -/
def wsSplit : List Char → List (List Char)
  | [] => []
  | c :: rest =>
    if c.isWhitespace then wsSplit rest
    else
      match rest, wsSplit rest with
      | [], _ => [[c]]
      | r :: _, groups =>
        if r.isWhitespace then [c] :: groups
        else
          match groups with
          | [] => [[c]]
          | g :: gs => (c :: g) :: gs

/-- A character of the base64 alphabet proper (`A`-`Z`, `a`-`z`, `0`-`9`,
`+`, `/`); padding `=` is handled separately. -/
def isB64Char (c : Char) : Bool :=
  c.isAlpha || c.isDigit || c = '+' || c = '/'

/-- The next character the base64 scanner would look at (alphabet or pad),
skipping ignored characters. -/
def nextValid : List Char → Option Char
  | [] => Option.none
  | c :: rest => if isB64Char c || c = '=' then Option.some c else nextValid rest

/-- Whether `binascii.a2b_base64` accepts the token: non-alphabet characters
are ignored; a pad `=` at position 3 of a quad — or at position 2 when the
next meaningful character is another pad — ends decoding successfully; at end
of input, decoding succeeds exactly when the quad is complete (otherwise the
library raises `binascii.Error`, which the caller turns into `False`). -/
def b64ScanOk : List Char → Nat → Bool
  | [], quadPos => quadPos == 0
  | c :: rest, quadPos =>
    if c = '=' then
      if quadPos == 3 then true
      else if quadPos == 2 then
        match nextValid rest with
        | Option.some '=' => true
        | _ => b64ScanOk rest quadPos
      else b64ScanOk rest quadPos
    else if isB64Char c then b64ScanOk rest ((quadPos + 1) % 4)
    else b64ScanOk rest quadPos

/-- `base64.decodestring(token)` succeeds (see `b64ScanOk`). -/
def a2b_base64_ok (token : List Char) : Bool := b64ScanOk token 0

/-- `token.encode('ascii')` succeeds: every character is ASCII. -/
def asciiOnly (token : List Char) : Bool := token.all (fun c => c.toNat < 128)

/-- The whitelist of key types (robottelo/ssh.py lines 332-334). -/
def valid_key_types : List String :=
  ["ecdsa-sha2-nistp256", "ssh-dss", "ssh-rsa", "ssh-ed25519"]

/-- `is_ssh_pub_key` (robottelo/ssh.py lines 308-334): a non-text input
raises; a text input is split on whitespace and anything but exactly three
tokens returns `false`; the second token is encoded to ASCII (raising
`UnicodeEncodeError` on a non-ASCII character, uncaught) and base64-decoded
(`binascii.Error` is caught and returns `false`); finally the first token is
tested against the whitelist. -/
def is_ssh_pub_key_str (s : String) : KeyCheck :=
  match wsSplit s.data with
  | [key_type, key_string, _comment] =>
    if asciiOnly key_string then
      if a2b_base64_ok key_string then
        KeyCheck.ok (valid_key_types.contains (String.mk key_type))
      else KeyCheck.ok false
    else KeyCheck.raises PyError.unicodeEncodeErr
  | _ => KeyCheck.ok false

/-- The full validator: dispatch on the `isinstance` text check, then
validate the string (see `is_ssh_pub_key_str`). -/
def is_ssh_pub_key (key : PyObj) : KeyCheck :=
  match key with
  | PyObj.pyStr s => is_ssh_pub_key_str s
  | _ => KeyCheck.raises PyError.invalidInputType

end Robottelo

namespace Robottelo

/-!  `add_authorized_key` (robottelo/ssh.py lines 144-199). -/

/-- The pattern matches at the head of the text. -/
def headMatches : List Char → List Char → Bool
  | [], _ => true
  | _ :: _, [] => false
  | p :: ps, c :: cs => p == c && headMatches ps cs

/-- The pattern occurs somewhere in the text (substring containment: how
`grep -q PATTERN FILE` matches a line for a metacharacter-free pattern). -/
def occursIn (pat : List Char) : List Char → Bool
  | [] => headMatches pat []
  | c :: cs => headMatches pat (c :: cs) || occursIn pat cs

/-- The effect on the remote authorized-keys file (one line per list entry)
of the append step at robottelo/ssh.py lines 186-189:

    grep -q KEY FILE || echo KEY >> FILE

if some line of the file contains the key text, nothing happens; otherwise
the key is appended as a new last line. -/
def addKeyStep (key : String) (file : List String) : List String :=
  if file.any (fun l => occursIn key.data l.data) then file else file ++ [key]

/-- Number of occurrences of the exact key line in the file. -/
def countOcc (key : String) (file : List String) : Nat :=
  (file.filter (fun l => l = key)).length

/-- A single-quote character, as the format string at robottelo/ssh.py line
187 wraps the key in single quotes. -/
def squote : String := String.mk [Char.ofNat 39]

/-- `ssh_path` (robottelo/ssh.py line 176). -/
def ssh_path : String := "~/.ssh"

/-- `auth_file = os.path.join(ssh_path, 'authorized_keys')` (line 177). -/
def auth_file : String := ssh_path ++ "/" ++ "authorized_keys"

/-- The six remote commands `add_authorized_key` issues, in source order
(robottelo/ssh.py lines 184-199): directory creation, conditional key append,
directory and file permission fix-up, ownership change, and the
tolerate-absence SELinux restorecon step. -/
def add_authorized_key_cmds (key_content ssh_user : String) : List String :=
  ["mkdir -p " ++ ssh_path,
   "grep -q " ++ squote ++ key_content ++ squote ++ " " ++ auth_file ++
     " || echo " ++ squote ++ key_content ++ squote ++ " >> " ++ auth_file,
   "chmod 700 " ++ ssh_path,
   "chmod 600 " ++ auth_file,
   "chown -R " ++ ssh_user ++ " " ++ ssh_path,
   "command -v restorecon && restorecon -RvF " ++ ssh_path ++ " || true"]

/-- The execution of `add_authorized_key`'s command sequence over one
connection: each command is handed to `execute_command` in order and the
result is discarded — the Python function never reads any `return_code`, so
every command runs whatever the earlier ones returned.  The list of results
records what ran. -/
def add_authorized_key (exec : String → SSHCommandResult) (key_content ssh_user : String) :
    List SSHCommandResult :=
  (add_authorized_key_cmds key_content ssh_user).map exec

/-- A remote on which every command exits with status 1. -/
def failingExec : String → SSHCommandResult :=
  fun _ => SSHCommandResult.init (PyVal.str "") "" 1 Option.none

/-- The return codes of a result list. -/
def returnCodes (rs : List SSHCommandResult) : List Int :=
  rs.map (fun r => r.return_code)

/-- `os.path.basename`: the part of the path after the last slash. -/
def os_path_basename (p : String) : String :=
  String.mk ((p.data.reverse.takeWhile (fun c => c ≠ '/')).reverse)

/-- The local destination `download_file` uses (robottelo/ssh.py lines
229-230): the `local_file` argument if given, otherwise `remote_file`
itself. -/
def download_file_local (remote_file : String) (local_file : Option String) : String :=
  match local_file with
  | Option.none => remote_file
  | Option.some l => l

end Robottelo

namespace Robottelo

/-! ## Helper lemmas -/

theorem headMatches_refl : ∀ l : List Char, headMatches l l = true
  | [] => rfl
  | c :: cs => by simp [headMatches, headMatches_refl cs]

theorem occursIn_refl : ∀ l : List Char, occursIn l l = true
  | [] => rfl
  | c :: cs => by simp [occursIn, headMatches_refl]

theorem isParsed_normalizeStdout (out : String) (fmt : Option String) :
    isParsed (normalizeStdout out fmt) = false := by
  unfold normalizeStdout
  split <;> rfl

/-! ## The claims -/

/-- C1: in `SSHCommandResult.__init__`, stdout is handed to a structured
parser exactly when the format is json or csv, the return code is 0 and
stdout is non-empty (truthy); with format json and empty stdout the stored
stdout is None, with format csv and empty stdout it is the empty dict, in
both cases without invoking a parser. -/
theorem c1_parsing_dispatch (stdout : PyVal) (stderr : String) (rc : Int) (fmt : Option String)
    (hraw : isParsed stdout = false) :
    (isParsed (SSHCommandResult.init stdout stderr rc fmt).stdout = true ↔
      ((fmt = Option.some "json" ∨ fmt = Option.some "csv") ∧ rc = 0 ∧ pyTruthy stdout = true)) ∧
    (fmt = Option.some "json" ∧ rc = 0 ∧ pyTruthy stdout = false →
      (SSHCommandResult.init stdout stderr rc fmt).stdout = PyVal.none) ∧
    (fmt = Option.some "csv" ∧ rc = 0 ∧ pyTruthy stdout = false →
      (SSHCommandResult.init stdout stderr rc fmt).stdout = PyVal.emptyDict) := by
  rcases fmt with _ | f
  · simp [SSHCommandResult.init, initStdout, formatTruthy, hraw]
  · by_cases h0 : rc = 0 <;> by_cases ht : pyTruthy stdout <;>
      by_cases hj : f = "json" <;> by_cases hc : f = "csv" <;>
        simp_all [SSHCommandResult.init, initStdout, formatTruthy, isParsed]

theorem c1_witness :
    isParsed (SSHCommandResult.init (PyVal.str "x") "" 0 (Option.some "json")).stdout = true :=
  (c1_parsing_dispatch (PyVal.str "x") "" 0 (Option.some "json") (by decide)).1.mpr
    ⟨Or.inl rfl, rfl, by decide⟩

/-- C2: the `get_connection` scope closes the underlying connection exactly
once on every exit path: for any body that does not itself close the
connection, the state after the scope has one close, whether the body
returned normally or raised. -/
theorem c2_scoped_close {α : Type} (body : ConnState → ConnState × PyResult α)
    (h : ∀ s, ((body s).1).closeCount = s.closeCount) :
    (get_connection_scope body).1.closeCount = 1 ∧
    (get_connection_scope body).1.opened = false := by
  constructor
  · show ((body freshConn).1.close).closeCount = 1
    simp only [ConnState.close]
    rw [h freshConn]
    rfl
  · rfl

theorem c2_witness :
    (get_connection_scope raisingBody).1.closeCount = 1 ∧
    (get_connection_scope raisingBody).1.opened = false :=
  c2_scoped_close raisingBody (fun _ => rfl)

/-- C3: for a non-zero return code the Result Record's stdout is exactly the
normalized raw output (text, or cleaned-up line list) and is never a parsed
structured value, whatever the requested output format. -/
theorem c3_nonzero_no_parse (out err : String) (rc : Int) (fmt : Option String) (h : rc ≠ 0) :
    (execute_command_result out err rc fmt).stdout = normalizeStdout out fmt ∧
    isParsed (execute_command_result out err rc fmt).stdout = false := by
  have hs : (execute_command_result out err rc fmt).stdout = normalizeStdout out fmt := by
    simp [execute_command_result, SSHCommandResult.init, initStdout, h]
  exact ⟨hs, by rw [hs]; exact isParsed_normalizeStdout out fmt⟩

theorem c3_witness :
    (execute_command_result "out" "" 64 (Option.some "json")).stdout =
      normalizeStdout "out" (Option.some "json") ∧
    isParsed (execute_command_result "out" "" 64 (Option.some "json")).stdout = false :=
  c3_nonzero_no_parse "out" "" 64 (Option.some "json") (by decide)

/-- C4 counterexample: the claim says any violation of base64 validity
returns false without raising, but on the key string "ssh-rsa ¡ comment"
(three tokens, second token not ASCII and so not valid base64) the code
raises the uncaught UnicodeEncodeError from key_string.encode('ascii')
instead of returning false. -/
theorem c4_counterexample :
    is_ssh_pub_key (PyObj.pyStr "ssh-rsa ¡ comment") =
      KeyCheck.raises PyError.unicodeEncodeErr ∧
    is_ssh_pub_key (PyObj.pyStr "ssh-rsa ¡ comment") ≠ KeyCheck.ok false := by decide

/-- C4 (amended): a non-text input raises the invalid-input-type error; a
text input with exactly three whitespace-separated tokens whose second token
is ASCII returns, without raising, true exactly when that token is valid
base64 and the first token is whitelisted; a token count other than three
returns false; but a non-ASCII second token raises a unicode encoding error
(see `c4_counterexample`). -/
theorem c4_validator (s s2 : String) (n : Int) (t b c : List Char)
    (h3 : wsSplit s.data = [t, b, c])
    (hascii : asciiOnly b = true)
    (hlen : (wsSplit s2.data).length ≠ 3) :
    is_ssh_pub_key (PyObj.pyStr s) =
      KeyCheck.ok (a2b_base64_ok b && valid_key_types.contains (String.mk t)) ∧
    is_ssh_pub_key (PyObj.pyStr s2) = KeyCheck.ok false ∧
    is_ssh_pub_key (PyObj.pyInt n) = KeyCheck.raises PyError.invalidInputType ∧
    is_ssh_pub_key PyObj.pyNone = KeyCheck.raises PyError.invalidInputType := by
  refine ⟨?_, ?_, rfl, rfl⟩
  · have hstr : is_ssh_pub_key (PyObj.pyStr s) = is_ssh_pub_key_str s := rfl
    rw [hstr]
    unfold is_ssh_pub_key_str
    rw [h3]
    simp only [hascii, if_true]
    by_cases hb : a2b_base64_ok b <;> simp [hb]
  · have hstr : is_ssh_pub_key (PyObj.pyStr s2) = is_ssh_pub_key_str s2 := rfl
    rw [hstr]
    unfold is_ssh_pub_key_str
    rcases hws : wsSplit s2.data with _ | ⟨x, _ | ⟨y, _ | ⟨z, _ | ⟨w, rest⟩⟩⟩⟩ <;>
      first
        | rfl
        | (exact absurd (by rw [hws]; simp) hlen)

theorem c4_witness :
    is_ssh_pub_key (PyObj.pyStr "ssh-rsa QUJD comment") = KeyCheck.ok true ∧
    is_ssh_pub_key (PyObj.pyStr "garbage") = KeyCheck.ok false := by
  have h := c4_validator "ssh-rsa QUJD comment" "garbage" 0
    ("ssh-rsa".data) ("QUJD".data) ("comment".data) (by decide) (by decide) (by decide)
  exact ⟨by rw [h.1]; decide, h.2.1⟩

/-- C5: running the authorized-key append step twice with the same key is
idempotent, and starting from a file none of whose lines contains the key,
the file after two runs holds exactly one occurrence of the key line. -/
theorem c5_idempotent_append (key : String) (file : List String)
    (h : ∀ l ∈ file, occursIn key.data l.data = false) :
    addKeyStep key (addKeyStep key file) = addKeyStep key file ∧
    countOcc key (addKeyStep key (addKeyStep key file)) = 1 := by
  have hany : file.any (fun l => occursIn key.data l.data) = false := by
    rw [List.any_eq_false]
    intro l hl
    simp [h l hl]
  have h1 : addKeyStep key file = file ++ [key] := by
    simp [addKeyStep, hany]
  have hany2 : (file ++ [key]).any (fun l => occursIn key.data l.data) = true := by
    simp [occursIn_refl]
  have h2 : addKeyStep key (file ++ [key]) = file ++ [key] := by
    simp [addKeyStep, hany2]
  refine ⟨by rw [h1, h2], ?_⟩
  rw [h1, h2]
  have hnot : file.filter (fun l => l = key) = [] := by
    rw [List.filter_eq_nil_iff]
    intro l hl
    intro hlk
    have hk := h l hl
    rw [of_decide_eq_true hlk, occursIn_refl] at hk
    exact Bool.noConfusion hk
  simp [countOcc, List.filter_append, hnot]

theorem c5_witness :
    addKeyStep "ssh-rsa QUJD me" (addKeyStep "ssh-rsa QUJD me" ["# existing"]) =
      addKeyStep "ssh-rsa QUJD me" ["# existing"] ∧
    countOcc "ssh-rsa QUJD me"
      (addKeyStep "ssh-rsa QUJD me" (addKeyStep "ssh-rsa QUJD me" ["# existing"])) = 1 :=
  c5_idempotent_append "ssh-rsa QUJD me" ["# existing"] (by decide)

/-- C6 counterexample: the claim says the operation fails as soon as any
step returns non-zero, but on a remote where the very first step (and every
step) exits with status 1, all six steps still execute and the operation
completes, returning their results. -/
theorem c6_counterexample :
    returnCodes (add_authorized_key failingExec "PUBKEY" "root") = [1, 1, 1, 1, 1, 1] := rfl

/-- C6 (amended): `add_authorized_key` never inspects any step's exit
status: for every remote behaviour it executes all six commands in source
order and completes, non-zero exit statuses included — a remote command
failure is data in the discarded results, not a control-flow event. -/
theorem c6_all_steps_run (exec : String → SSHCommandResult) (key_content ssh_user : String) :
    add_authorized_key exec key_content ssh_user =
      (add_authorized_key_cmds key_content ssh_user).map exec ∧
    (add_authorized_key exec key_content ssh_user).length = 6 :=
  ⟨rfl, by simp [add_authorized_key, add_authorized_key_cmds]⟩

/-- C7: with no output format, a non-empty stdout becomes the list of its
lines (after dropping the quote artifacts) that do not start with a bracket,
each with its color codes stripped, kept in their original relative order
(the kept raw lines form a sublist of all lines); with format "plain" line
splitting is bypassed and stdout is the decoded text unchanged. -/
theorem c7_plain_lines (out err : String) (rc : Int) (h : out ≠ "") :
    (execute_command_result out err rc Option.none).stdout =
      PyVal.strList (renderLines (plainLines out)) ∧
    List.Sublist (plainLines out) (splitOnNl (removeQuotePairs out.data)) ∧
    (∀ l ∈ plainLines out, pyStartsWithBracket l = false) ∧
    (execute_command_result out err rc (Option.some "plain")).stdout = PyVal.str out := by
  refine ⟨?_, List.filter_sublist _, ?_, ?_⟩
  · simp [execute_command_result, SSHCommandResult.init, initStdout, formatTruthy,
      normalizeStdout, h]
  · intro l hl
    have := (List.mem_filter.mp hl).2
    simpa using this
  · by_cases h0 : rc = 0 <;>
      simp_all [execute_command_result, SSHCommandResult.init, initStdout, formatTruthy,
        normalizeStdout]

theorem c7_witness :
    (execute_command_result "\x1b[31mok\n[banner" "" 0 Option.none).stdout =
      PyVal.strList (renderLines (plainLines "\x1b[31mok\n[banner")) :=
  (c7_plain_lines "\x1b[31mok\n[banner" "" 0 (by decide)).1

/-- C8 counterexample: executing `echo hello` (raw remote stdout is the six
bytes of "hello" plus the trailing newline, exit status 0, no output format)
does not yield stdout ["hello"]: the split on the trailing newline keeps a
final empty line. -/
theorem c8_counterexample :
    (execute_command_result "hello\n" "" 0 Option.none).stdout ≠ PyVal.strList ["hello"] := by
  decide

/-- C8 (amended): executing `echo hello` over a session with no output
format yields stdout ["hello", ""] — the requested line, then the empty
string produced by the terminating newline — with empty stderr and return
code 0. -/
theorem c8_result :
    (execute_command_result "hello\n" "" 0 Option.none).stdout = PyVal.strList ["hello", ""] ∧
    (execute_command_result "hello\n" "" 0 Option.none).stderr = "" ∧
    (execute_command_result "hello\n" "" 0 Option.none).return_code = 0 := by decide

/-- C9 counterexample: with the local destination unspecified, `download_file`
uses the full remote path "/etc/motd" as the local path, not its basename
"motd". -/
theorem c9_counterexample :
    download_file_local "/etc/motd" Option.none = "/etc/motd" ∧
    download_file_local "/etc/motd" Option.none ≠ os_path_basename "/etc/motd" := by decide

/-- C9 (amended): the local destination defaults to the remote path itself
(all its directory components included) when unspecified, and is the given
path otherwise. -/
theorem c9_default (remote_file : String) (local_file : Option String) :
    download_file_local remote_file local_file = local_file.getD remote_file := by
  cases local_file <;> rfl

/-- C10: `command`'s single timeout argument reaches both the transport
connect (via `get_client`) and, positionally, `execute_command`'s timeout
parameter; the defaults are 10 for `command` and 120 for `execute_command`,
so a default one-shot `command` executes with timeout 10, not 120 (observed
through a connection that echoes the execution timeout as the exit
status). -/
theorem c10_timeout (behavior : String → Nat → Int × String × String)
    (cmd : String) (fmt : Option String) (t : Nat) :
    command cmd behavior fmt t = execute_command cmd (get_client behavior t) fmt t ∧
    (get_client behavior t).connectTimeout = t ∧
    command_default_timeout = 10 ∧
    execute_command_default_timeout = 120 ∧
    (command cmd spyBehavior Option.none command_default_timeout).return_code = 10 ∧
    (execute_command cmd (get_client spyBehavior command_default_timeout) Option.none
      execute_command_default_timeout).return_code = 120 :=
  ⟨rfl, rfl, rfl, rfl, rfl, rfl⟩

end Robottelo
